import Mathlib

/-!
Verification of the pythonocc-builder orchestration scripts.

The definitions below are shallow embeddings of the Python sources:
`build_wheels.py`, `build_3rdparty.py`, `check_cmake_python.py` and
`create_wheel.py`.  Filesystem paths are lists of components; the
filesystem itself is a finite list of (path, kind) entries, so that the
`os.path` queries and `Path.glob` calls of the sources become computable
Lean functions of that state.
-/

namespace PyoccBuilder

/-- A filesystem path, as a list of components. -/
abbrev FPath := List String

/-- Render a path the way the scripts interpolate it into command lines. -/
def pathStr (p : FPath) : String := String.intercalate "/" p

/-- What a filesystem entry can be: a regular file or a directory. -/
inductive EntryKind where
  | file
  | dir
  deriving DecidableEq, Repr

/-- A finite filesystem state: the entries that exist, in the order the
operating system enumerates them (the order `os.scandir`, and hence
`Path.glob`, yields results). -/
structure SysFS where
  entries : List (FPath × EntryKind)
  deriving DecidableEq, Repr

/-- The kind recorded for a path, if the path exists. -/
def SysFS.kindOf (fs : SysFS) (p : FPath) : Option EntryKind :=
  (fs.entries.find? (fun e => decide (e.1 = p))).map (fun e => e.2)

/-- Embeds `os.path.exists`. -/
def SysFS.existsB (fs : SysFS) (p : FPath) : Bool :=
  (fs.kindOf p).isSome

/-- Embeds `os.path.isdir`. -/
def SysFS.isDirB (fs : SysFS) (p : FPath) : Bool :=
  fs.kindOf p == some EntryKind.dir

/-- Embeds `os.path.isfile`. -/
def SysFS.isFileB (fs : SysFS) (p : FPath) : Bool :=
  fs.kindOf p == some EntryKind.file

/-- Shell-glob matching against pattern `p` and name `s`, structured over a
fuel argument that strictly exceeds `p.length + s.length` so that every
recursive call (each of which shortens the pattern or the name) is reached
before the fuel runs out. -/
def globMatchF : Nat → List Char → List Char → Bool
  | 0, _, _ => false
  | _ + 1, [], [] => true
  | f + 1, '*' :: ps, [] => globMatchF f ps []
  | f + 1, '*' :: ps, c :: cs => globMatchF f ps (c :: cs) || globMatchF f ('*' :: ps) cs
  | f + 1, q :: ps, c :: cs => q == c && globMatchF f ps cs
  | _ + 1, _ :: _, [] => false
  | _ + 1, [], _ :: _ => false

/-- Shell-glob matching of a pattern against a single name: `*` matches any
(possibly empty) run of characters, every other character matches itself.
This is the fragment of `fnmatch` the scripts' patterns use. -/
def globMatch (p s : List Char) : Bool :=
  globMatchF (p.length + s.length + 1) p s

/-- Embeds `Path(d).glob(pat)` for a single-component pattern: the children of `d`
whose name matches, in filesystem enumeration order.  As in Python, both
files and directories can match. -/
def SysFS.globD (fs : SysFS) (d : FPath) (pat : String) : List FPath :=
  fs.entries.filterMap (fun e =>
    if e.1.dropLast = d ∧ e.1 ≠ [] then
      match e.1.getLast? with
      | some n => if globMatch pat.data n.data then some e.1 else none
      | none => none
    else none)

/-- Embeds `Path(d).glob(pat1 ++ "/" ++ pat2)` for a two-component pattern: the
grandchildren of `d` whose two trailing components match the two patterns. -/
def SysFS.globD2 (fs : SysFS) (d : FPath) (pat1 pat2 : String) : List FPath :=
  fs.entries.filterMap (fun e =>
    match e.1.getLast?, e.1.dropLast.getLast? with
    | some n2, some n1 =>
      if e.1.dropLast.dropLast = d ∧ globMatch pat1.data n1.data ∧ globMatch pat2.data n2.data
      then some e.1 else none
    | _, _ => none)

/-- The dynamic-library search pattern `libpython<version>*.so*`. -/
def soPat (ver : String) : String := "libpython" ++ ver ++ "*.so*"

/-- The static-archive search pattern `libpython<version>*.a`. -/
def aPat (ver : String) : String := "libpython" ++ ver ++ "*.a"

/-- Embeds `candidates[0] if candidates else (static_candidates[0] if ... else None)`:
the preference for a dynamic match over a static one, first element of a
filesystem listing in either case. -/
def pickFirst (c s : List FPath) : Option FPath :=
  match c with
  | x :: _ => some x
  | [] =>
    match s with
    | y :: _ => some y
    | [] => none

/-- The full library search of `check_cmake_python.py` (`check_python_detection`,
lines 33-73): accept the self-reported `LIBDIR/LDLIBRARY` path when it exists
and is not a directory; otherwise glob the reported library directory for
dynamic then static patterns; if both come up empty and a sibling `lib64`
directory exists, glob there; if still empty, glob inside every
`python<version>*/config*` subdirectory.  `some p` is the selected candidate,
`none` is the explicit "no suitable library" report. -/
def findPythonLib (fs : SysFS) (libdir : FPath) (ldlib : String) (ver : String) : Option FPath :=
  let python_lib := libdir ++ [ldlib]
  if fs.existsB python_lib && !(fs.isDirB python_lib) then
    some python_lib
  else
    let c0 := fs.globD libdir (soPat ver)
    let s0 := fs.globD libdir (aPat ver)
    if c0.isEmpty && s0.isEmpty then
      let lib64 := libdir.dropLast ++ ["lib64"]
      let c1 := if fs.existsB lib64 then fs.globD lib64 (soPat ver) else []
      let s1 := if fs.existsB lib64 then fs.globD lib64 (aPat ver) else []
      if c1.isEmpty && s1.isEmpty then
        let cdirs := fs.globD2 libdir ("python" ++ ver ++ "*") "config*"
        pickFirst (cdirs.flatMap (fun cd => fs.globD cd (soPat ver)))
                  (cdirs.flatMap (fun cd => fs.globD cd (aPat ver)))
      else pickFirst c1 s1
    else pickFirst c0 s0

/-- The library search of `build_wheels.py` (`compile_pythonocc`, lines 72-113):
same first two tiers, but on a complete miss the variable keeps the stale
self-reported path (the `pass` branch leaves `python_lib` unchanged). -/
def bwPythonLib (fs : SysFS) (libdir : FPath) (ldlib : String) (ver : String) : FPath :=
  let python_lib := libdir ++ [ldlib]
  if !(fs.existsB python_lib) || fs.isDirB python_lib then
    match fs.globD libdir (soPat ver) with
    | c :: _ => c
    | [] =>
      match fs.globD libdir (aPat ver) with
      | s :: _ => s
      | [] => python_lib
  else python_lib

/-- From `build_wheels.py` lines 137-140: the optional `-DPYTHON_LIBRARY=` argument
is appended to the cmake command only when the chosen path exists and is a
regular file. -/
def pythonLibraryArg (fs : SysFS) (libdir : FPath) (ldlib : String) (ver : String) : Option FPath :=
  let pl := bwPythonLib fs libdir ldlib ver
  if fs.existsB pl && fs.isFileB pl then some pl else none

/-- The search-tier order exactly as the spec documents it (§4.1 / claim C2):
the canonical self-reported path when it is present and not a directory, and
otherwise the first hit of the concatenation [dynamic pattern in the reported
library directory, static pattern there, dynamic then static in the sibling
`lib64` directory when it exists, dynamic then static inside the nested
`python<version>*/config*` subdirectories].  Written from the spec's words;
candidates are not filtered by file kind, which is the amendment claim C2
forces. -/
def specTierSearch (fs : SysFS) (libdir : FPath) (ldlib : String) (ver : String) : Option FPath :=
  let canonical := libdir ++ [ldlib]
  if fs.existsB canonical && !(fs.isDirB canonical) then some canonical
  else
    let lib64 := libdir.dropLast ++ ["lib64"]
    let cdirs := fs.globD2 libdir ("python" ++ ver ++ "*") "config*"
    (fs.globD libdir (soPat ver)
      ++ fs.globD libdir (aPat ver)
      ++ (if fs.existsB lib64 then fs.globD lib64 (soPat ver) else [])
      ++ (if fs.existsB lib64 then fs.globD lib64 (aPat ver) else [])
      ++ cdirs.flatMap (fun cd => fs.globD cd (soPat ver))
      ++ cdirs.flatMap (fun cd => fs.globD cd (aPat ver))).head?

/-- Everything the library search reads from the filesystem: the kind check
of the canonical path and the six glob listings, in enumeration order. -/
structure LocatorView where
  canonicalOk : Bool
  libdirSo : List FPath
  libdirA : List FPath
  lib64So : List FPath
  lib64A : List FPath
  configSo : List FPath
  configA : List FPath
  deriving DecidableEq, Repr

/-- The view `findPythonLib` has of a concrete filesystem. -/
def locatorView (fs : SysFS) (libdir : FPath) (ldlib : String) (ver : String) : LocatorView :=
  let lib64 := libdir.dropLast ++ ["lib64"]
  let cdirs := fs.globD2 libdir ("python" ++ ver ++ "*") "config*"
  { canonicalOk := fs.existsB (libdir ++ [ldlib]) && !(fs.isDirB (libdir ++ [ldlib]))
    libdirSo := fs.globD libdir (soPat ver)
    libdirA := fs.globD libdir (aPat ver)
    lib64So := if fs.existsB lib64 then fs.globD lib64 (soPat ver) else []
    lib64A := if fs.existsB lib64 then fs.globD lib64 (aPat ver) else []
    configSo := cdirs.flatMap (fun cd => fs.globD cd (soPat ver))
    configA := cdirs.flatMap (fun cd => fs.globD cd (aPat ver)) }

/-- The selection logic of `findPythonLib` as a pure function of its view. -/
def locCore (canonical : FPath) (w : LocatorView) : Option FPath :=
  if w.canonicalOk then some canonical
  else if w.libdirSo.isEmpty && w.libdirA.isEmpty then
    if w.lib64So.isEmpty && w.lib64A.isEmpty then pickFirst w.configSo w.configA
    else pickFirst w.lib64So w.lib64A
  else pickFirst w.libdirSo w.libdirA

/-! ## Wheel assembly (`create_wheel.py`) and repair (`build_wheels.py`) -/

/-- From `create_wheel.py` line 9: the hardcoded package name. -/
def packageName : String := "pythonocc_core"

/-- From `create_wheel.py` line 10: the hardcoded version. -/
def packageVersion : String := "7.9.0"

/-- From `create_wheel.py` line 14: the hardcoded raw platform tag. -/
def platformTag : String := "linux_x86_64"

/-- From `create_wheel.py` lines 13-15: the compatibility tag, with the abi tag a
copy of the interpreter tag argument. -/
def wheelTag (python_version : String) : String :=
  python_version ++ "-" ++ python_version ++ "-" ++ platformTag

/-- From `create_wheel.py` line 17: the archive filename. -/
def wheelName (python_version : String) : String :=
  packageName ++ "-" ++ packageVersion ++ "-" ++ wheelTag python_version ++ ".whl"

/-- From `create_wheel.py` lines 43-47: the WHEEL metadata record, one line per
`f.write`. -/
def wheelMetadataLines (python_version : String) : List String :=
  [ "Wheel-Version: 1.0"
  , "Generator: custom"
  , "Root-Is-Purelib: false"
  , "Tag: " ++ wheelTag python_version ]

/-- The observable outcome of `create_wheel` (`create_wheel.py` lines 7-58):
which scratch directory it lays the archive out in, where the package
content is copied from, the metadata record and the output archive path. -/
structure WheelBuildResult where
  buildDir : String
  contentSource : String
  metadataLines : List String
  wheelFileTarget : String
  deriving DecidableEq, Repr

/-- Shallow embedding of `create_wheel(src_dir, output_dir, python_version)`. -/
def create_wheel (src_dir output_dir python_version : String) : WheelBuildResult :=
  { buildDir := "build_wheel_" ++ python_version
    contentSource := src_dir
    metadataLines := wheelMetadataLines python_version
    wheelFileTarget := output_dir ++ "/" ++ wheelName python_version }

/-- From `build_wheels.py` lines 185-191: the auditwheel invocation of
`repair_wheel`, which receives the target platform via `--plat`. -/
def repairCmdArgs (venv_path wheel_path plat_tag output_dir : String) : List String :=
  [ venv_path ++ "/bin/python", "-m", "auditwheel", "repair"
  , wheel_path, "--plat", plat_tag, "-w", output_dir ]

/-- The filename pattern the spec documents for assembled wheels:
`<package>-<version>-<tag>-<tag>-<platform>.whl` (spec §4.4, claim C5).
Written from the spec's words, to be compared with `wheelName`. -/
def specWheelFileName (pkg ver tag plat : String) : String :=
  pkg ++ "-" ++ ver ++ "-" ++ tag ++ "-" ++ tag ++ "-" ++ plat ++ ".whl"

/-! ## Abi-tag derivation (`build_wheels.py`, `package_wheel`) -/

/-- Python's `str.split(sep)` on a character separator: `"".split(sep)` is
`[""]`, and every occurrence of the separator starts a new field. -/
def pySplit (sep : Char) : List Char → List (List Char)
  | [] => [[]]
  | c :: cs =>
    let r := pySplit sep cs
    if c = sep then [] :: r
    else
      match r with
      | h :: t => (c :: h) :: t
      | [] => [[c]]

/-- From `build_wheels.py` lines 160-161: `ver_parts = python_version.split('.')`
then `f"cp{ver_parts[0]}{ver_parts[1]}"`.  `none` models the `IndexError`
raised when an index is out of range. -/
def packageWheelAbiTag (python_version : String) : Option String :=
  let ver_parts := pySplit '.' python_version.data
  match ver_parts.get? 0, ver_parts.get? 1 with
  | some p0, some p1 => some ("cp" ++ String.mk p0 ++ String.mk p1)
  | _, _ => none

/-- From `build_wheels.py` lines 157-169 (`package_wheel`): the abi tag is derived
first; only then is the wheel-creation script invoked.  The result is the
argument vector of that invocation, `none` when the derivation raised. -/
def package_wheel (install_dir output_dir python_version : String) : Option (List String) :=
  (packageWheelAbiTag python_version).map (fun abi_tag =>
    ["create_wheel.py", install_dir, output_dir ++ "/raw", abi_tag])

/-! ## Orchestration traces (`build_3rdparty.py` and `build_wheels.py` main) -/

/-- Which phase of a build unit a command implements. -/
inductive BStep where
  | configureS
  | makeS
  | installS
  | venvS
  | pipS
  | packageS
  | repairS
  | scriptS
  deriving DecidableEq, Repr

/-- One command the orchestrator issues.  `clearDir` is the
`shutil.rmtree`-if-present plus `mkdir` pairing; `extract` is
`tarfile.extractall`; `run` is a `run_command`/`subprocess` call, tagged with
the stage it belongs to, its phase, the interpreter version it serves (for
the per-version wheel loop) and its working directory and argument vector. -/
inductive Cmd where
  | clearDir (d : FPath)
  | extract (tar : String) (dest : FPath)
  | run (stage : String) (step : BStep) (ver : Option String) (cwd : FPath) (args : List String)
  deriving DecidableEq, Repr

/-- The interpreter version a command belongs to, when any. -/
def cmdVer : Cmd → Option String
  | Cmd.run _ _ v _ _ => v
  | _ => none

/-- The argument vector of a command. -/
def cmdArgs : Cmd → List String
  | Cmd.run _ _ _ _ a => a
  | _ => []

/-- Sequential execution with fail-fast semantics: commands run in order and
each is paired with its outcome under the oracle `ok`; the first failing
command terminates the process (`run_command` calls `sys.exit(1)`, and an
uncaught exception aborts likewise), so nothing after it is attempted. -/
def runTrace (ok : Cmd → Bool) : List Cmd → List (Cmd × Bool)
  | [] => []
  | c :: cs => if ok c then (c, true) :: runTrace ok cs else [(c, false)]

/-- The configure step of `build_tcl`, carrying the shared tcltk prefix. -/
def tclConfigureCmd (p3 tcltk : FPath) (src : String) : Cmd :=
  Cmd.run "tcl" BStep.configureS none (p3 ++ [src, "unix"])
    [pathStr (p3 ++ [src, "unix"]) ++ "/configure", "--prefix=" ++ pathStr tcltk, "--enable-shared"]

/-- The make step of `build_tcl`. -/
def tclMakeCmd (p3 : FPath) (src : String) : Cmd :=
  Cmd.run "tcl" BStep.makeS none (p3 ++ [src, "unix"]) ["make", "-j"]

/-- The `make install` step of `build_tcl`: this is the command whose success
puts the tcl install layout on disk. -/
def tclInstallCmd (p3 : FPath) (src : String) : Cmd :=
  Cmd.run "tcl" BStep.installS none (p3 ++ [src, "unix"]) ["make", "install"]

/-- From `build_3rdparty.py` lines 26-39 (`build_tcl`): configure with the shared
tcltk prefix, make, make install, all in the extracted source's `unix`
directory. -/
def tclCmds (p3 tcltk : FPath) (src : String) : List Cmd :=
  [tclConfigureCmd p3 tcltk src, tclMakeCmd p3 src, tclInstallCmd p3 src]

/-- The tk configure command of `build_3rdparty.py` lines 41-53, with the
shared tcltk prefix and the `--with-tcl` reference to the tcl install. -/
def tkConfigureCmd (p3 tcltk : FPath) (src : String) : Cmd :=
  Cmd.run "tk" BStep.configureS none (p3 ++ [src, "unix"])
    [pathStr (p3 ++ [src, "unix"]) ++ "/configure", "--prefix=" ++ pathStr tcltk,
     "--enable-shared", "--with-tcl=" ++ pathStr tcltk ++ "/lib"]

/-- From `build_3rdparty.py` lines 41-55 (`build_tk`). -/
def tkCmds (p3 tcltk : FPath) (src : String) : List Cmd :=
  [ tkConfigureCmd p3 tcltk src
  , Cmd.run "tk" BStep.makeS none (p3 ++ [src, "unix"]) ["make", "-j"]
  , Cmd.run "tk" BStep.installS none (p3 ++ [src, "unix"]) ["make", "install"] ]

/-- From `build_3rdparty.py` lines 57-69 (`build_freetype`). -/
def freetypeCmds (p3 ft : FPath) (src : String) : List Cmd :=
  [ Cmd.run "freetype" BStep.configureS none (p3 ++ [src])
      [pathStr (p3 ++ [src]) ++ "/configure", "--prefix=" ++ pathStr ft, "--enable-shared"]
  , Cmd.run "freetype" BStep.makeS none (p3 ++ [src]) ["make", "-j"]
  , Cmd.run "freetype" BStep.installS none (p3 ++ [src]) ["make", "install"] ]

/-- From `build_3rdparty.py` lines 71-82 (`build_swig`). -/
def swigCmds (p3 sw : FPath) (src : String) : List Cmd :=
  [ Cmd.run "swig" BStep.configureS none (p3 ++ [src])
      [pathStr (p3 ++ [src]) ++ "/configure", "--prefix=" ++ pathStr sw]
  , Cmd.run "swig" BStep.makeS none (p3 ++ [src]) ["make", "-j"]
  , Cmd.run "swig" BStep.installS none (p3 ++ [src]) ["make", "install"] ]

/-- From `build_3rdparty.py` lines 84-119 (`build_occt`): the scratch build
directory is the literal relative path `build/occt`, removed and recreated
before cmake configures in it. -/
def occtCmds (occtSrc occt tcltk ft : FPath) : List Cmd :=
  [ Cmd.clearDir ["build", "occt"]
  , Cmd.run "occt" BStep.configureS none ["build", "occt"]
      [ "cmake", pathStr occtSrc, "-DINSTALL_DIR=" ++ pathStr occt, "-DUSE_FREETYPE=ON"
      , "-D3RDPARTY_FREETYPE_DIR=" ++ pathStr ft
      , "-D3RDPARTY_FREETYPE_LIBRARY_DIR=" ++ pathStr ft ++ "/lib"
      , "-DUSE_TCL=ON", "-DUSE_TK=ON"
      , "-D3RDPARTY_TCL_DIR=" ++ pathStr tcltk, "-D3RDPARTY_TK_DIR=" ++ pathStr tcltk
      , "-D3RDPARTY_TCL_LIBRARY_DIR=" ++ pathStr tcltk ++ "/lib"
      , "-D3RDPARTY_TK_LIBRARY_DIR=" ++ pathStr tcltk ++ "/lib"
      , "-D3RDPARTY_TCL_LIBRARY=" ++ pathStr tcltk ++ "/lib/libtcl8.6.so"
      , "-D3RDPARTY_TK_LIBRARY=" ++ pathStr tcltk ++ "/lib/libtk8.6.so"
      , "-DCMAKE_BUILD_TYPE=Release", "-DBUILD_RELEASE_DISABLE_EXCEPTIONS=OFF" ]
  , Cmd.run "occt" BStep.makeS none ["build", "occt"] ["make", "-j"]
  , Cmd.run "occt" BStep.installS none ["build", "occt"] ["make", "install"] ]

/-- From `build_3rdparty.py` lines 121-163 (`main`): clear and recreate the
3rd-party scratch directory, extract every source tarball into it, then
build tcl, tk (same `tcltk` prefix), freetype, swig and occt in that fixed
order. -/
def thirdPartyCmds (srcDir installDir buildDir : FPath) (tars : List String)
    (tclSrc tkSrc ftSrc swigSrc : String) : List Cmd :=
  let p3 := buildDir ++ ["3rdparty"]
  let tcltk := installDir ++ ["tcltk"]
  Cmd.clearDir p3 ::
    (tars.map (fun t => Cmd.extract t p3)
      ++ tclCmds p3 tcltk tclSrc
      ++ tkCmds p3 tcltk tkSrc
      ++ freetypeCmds p3 (installDir ++ ["freetype"]) ftSrc
      ++ swigCmds p3 (installDir ++ ["swig"]) swigSrc
      ++ occtCmds (srcDir ++ ["occt"]) (installDir ++ ["occt"]) tcltk (installDir ++ ["freetype"]))

/-- From `build_wheels.py` lines 233-254: the per-version body of the main loop:
create the venv and install build dependencies, clear and recreate the
version's scratch build directory, configure, make, make install
(`compile_pythonocc`), then package and repair the wheel. -/
def versionCmds (workDir : FPath) (v : String) : List Cmd :=
  let venv := workDir ++ ["venv-" ++ v]
  let bdir := workDir ++ ["build", "pythonocc-" ++ v]
  [ Cmd.run "venv" BStep.venvS (some v) [] ["uv", "venv", pathStr venv, "--python", v]
  , Cmd.run "venv" BStep.pipS (some v) []
      ["uv", "pip", "install", "--python", pathStr venv ++ "/bin/python", "numpy", "wheel", "build", "auditwheel"]
  , Cmd.clearDir bdir
  , Cmd.run "pythonocc" BStep.configureS (some v) bdir ["cmake"]
  , Cmd.run "pythonocc" BStep.makeS (some v) bdir ["make", "-j"]
  , Cmd.run "pythonocc" BStep.installS (some v) bdir ["make", "install"]
  , Cmd.run "wheel" BStep.packageS (some v) [] ["create_wheel.py"]
  , Cmd.run "repair" BStep.repairS (some v) [] ["auditwheel", "repair"] ]

/-- The loop of `build_wheels.py` `main` over the requested versions. -/
def wheelsLoopCmds (workDir : FPath) : List String → List Cmd
  | [] => []
  | v :: vs => versionCmds workDir v ++ wheelsLoopCmds workDir vs

/-- From `build_wheels.py` `main`: the 3rd-party pipeline script runs once, then
the per-version loop. -/
def buildWheelsMainCmds (workDir : FPath) (versions : List String) : List Cmd :=
  Cmd.run "3rdparty" BStep.scriptS none [] ["build_3rdparty.py"] :: wheelsLoopCmds workDir versions

/-- Tests whether `root` is an initial segment of path `p`. -/
def isUnder (root p : FPath) : Bool :=
  match root, p with
  | [], _ => true
  | _ :: _, [] => false
  | a :: as, b :: bs => a == b && isUnder as bs

/-- Walks a command list in program order and checks that every configure
command runs in a directory that some earlier `clearDir` of the same run
removed and recreated (the directory itself or an ancestor of it): the
formalisation of "no stale build state from an earlier run is present when
configure starts". -/
def clearedBeforeConfigure : List FPath → List Cmd → Bool
  | _, [] => true
  | cleared, Cmd.clearDir d :: cs => clearedBeforeConfigure (d :: cleared) cs
  | cleared, Cmd.run _ BStep.configureS _ cwd _ :: cs =>
    cleared.any (fun d => isUnder d cwd) && clearedBeforeConfigure cleared cs
  | cleared, _ :: cs => clearedBeforeConfigure cleared cs

/-! ## Concrete data used by witnesses and counterexamples -/

/-- A filesystem whose reported library directory holds only a directory
whose name matches the dynamic-library glob pattern. -/
def staleDirFS : SysFS :=
  ⟨[(["lib", "libpython3.10.so.stale"], EntryKind.dir)]⟩

/-- A filesystem where the interpreter's self-reported library path exists
as a regular file. -/
def canonicalFS : SysFS :=
  ⟨[(["usr", "lib", "libpython3.12.so"], EntryKind.file)]⟩

/-- An empty filesystem: nothing exists, no tier can match. -/
def emptyFS : SysFS := ⟨[]⟩

/-- Two matching dynamic libraries, enumerated m-first. -/
def twoCandFSa : SysFS :=
  ⟨[(["lib", "libpython3.10m.so"], EntryKind.file), (["lib", "libpython3.10d.so"], EntryKind.file)]⟩

/-- The same two entries, enumerated d-first. -/
def twoCandFSb : SysFS :=
  ⟨[(["lib", "libpython3.10d.so"], EntryKind.file), (["lib", "libpython3.10m.so"], EntryKind.file)]⟩

/-- One matching dynamic library plus an unrelated entry elsewhere. -/
def oneCandFSa : SysFS :=
  ⟨[(["lib", "libpython3.10m.so"], EntryKind.file), (["other", "x"], EntryKind.file)]⟩

/-- Only the matching dynamic library: same locator view as `oneCandFSa`. -/
def oneCandFSb : SysFS :=
  ⟨[(["lib", "libpython3.10m.so"], EntryKind.file)]⟩

/-- An outcome oracle under which every command succeeds except the
extension-compile `make` for Python 3.10. -/
def failMake310 : Cmd → Bool
  | Cmd.run "pythonocc" BStep.makeS (some "3.10") _ _ => false
  | _ => true

/-- The all-success outcome oracle. -/
def allOk : Cmd → Bool := fun _ => true

/-! ## Helper lemmas -/

theorem pickFirst_eq_or (c s : List FPath) : pickFirst c s = c.head?.or s.head? := by
  cases c <;> cases s <;> rfl

/-- The tiered dispatch of the source, abstracted over the six candidate
lists, agrees with taking the head of their concatenation in documented
order. -/
theorem tier_dispatch_eq_head (c0 s0 c1 s1 c2 s2 : List FPath) :
    (if c0.isEmpty && s0.isEmpty then
      (if c1.isEmpty && s1.isEmpty then pickFirst c2 s2 else pickFirst c1 s1)
     else pickFirst c0 s0)
    = (c0 ++ (s0 ++ (c1 ++ (s1 ++ (c2 ++ s2))))).head? := by
  simp only [List.head?_append, pickFirst_eq_or]
  by_cases h0 : c0.isEmpty && s0.isEmpty
  · have hc0 : c0 = [] := List.isEmpty_iff.mp (Bool.and_elim_left h0)
    have hs0 : s0 = [] := List.isEmpty_iff.mp (Bool.and_elim_right h0)
    subst hc0 hs0
    simp only [if_pos h0, List.head?_nil, Option.none_or]
    by_cases h1 : c1.isEmpty && s1.isEmpty
    · have hc1 : c1 = [] := List.isEmpty_iff.mp (Bool.and_elim_left h1)
      have hs1 : s1 = [] := List.isEmpty_iff.mp (Bool.and_elim_right h1)
      subst hc1 hs1
      simp [h1]
    · rw [if_neg h1]
      rcases c1 with _ | ⟨a, c1'⟩
      · rcases s1 with _ | ⟨b, s1'⟩
        · simp [List.isEmpty_nil] at h1
        · simp
      · simp
  · rw [if_neg h0]
    rcases c0 with _ | ⟨a, c0'⟩
    · rcases s0 with _ | ⟨b, s0'⟩
      · simp [List.isEmpty_nil] at h0
      · simp
    · simp

theorem findPythonLib_eq_locCore (fs : SysFS) (libdir : FPath) (ldlib : String) (ver : String) :
    findPythonLib fs libdir ldlib ver = locCore (libdir ++ [ldlib]) (locatorView fs libdir ldlib ver) := rfl

theorem pySplit_of_no_sep (sep : Char) (cs : List Char) (h : ∀ c ∈ cs, c ≠ sep) :
    pySplit sep cs = [cs] := by
  induction cs with
  | nil => rfl
  | cons c cs ih =>
    have hc : c ≠ sep := h c (List.mem_cons_self c cs)
    have ih' := ih (fun x hx => h x (List.mem_cons_of_mem c hx))
    simp [pySplit, hc, ih']

theorem runTrace_cons (ok : Cmd → Bool) (c : Cmd) (cs : List Cmd) :
    runTrace ok (c :: cs)
      = if ok c then (c, true) :: runTrace ok cs else [(c, false)] := rfl

theorem runTrace_append (ok : Cmd → Bool) (xs ys : List Cmd) :
    runTrace ok (xs ++ ys) =
      if xs.all ok then xs.map (fun c => (c, true)) ++ runTrace ok ys
      else runTrace ok xs := by
  induction xs with
  | nil => simp [runTrace]
  | cons c cs ih =>
    simp only [List.cons_append, runTrace, List.all_cons, List.append_eq]
    by_cases h : ok c
    · simp only [h, if_true, Bool.true_and]
      rw [ih]
      by_cases h2 : cs.all ok
      · rw [if_pos h2, if_pos h2]
        simp
      · rw [if_neg h2, if_neg h2]
    · simp only [h, Bool.false_and, if_false]
      simp

theorem runTrace_fst_mem (ok : Cmd → Bool) (cs : List Cmd) (x : Cmd × Bool)
    (h : x ∈ runTrace ok cs) : x.1 ∈ cs := by
  induction cs with
  | nil => simp [runTrace] at h
  | cons c cs ih =>
    by_cases hc : ok c
    · simp only [runTrace, if_pos hc, List.mem_cons] at h
      rcases h with h | h
      · simp [h]
      · exact List.mem_cons_of_mem c (ih h)
    · simp only [runTrace, if_neg hc, List.mem_cons, List.not_mem_nil, or_false] at h
      simp [h]

theorem isUnder_append (l m : FPath) : isUnder l (l ++ m) = true := by
  induction l with
  | nil => rfl
  | cons a as ih => simp [isUnder, ih]

theorem isUnder_refl (l : FPath) : isUnder l l = true := by
  have h := isUnder_append l []
  simpa using h

theorem isUnder_append_cons (l : FPath) (a : String) (m : FPath) :
    isUnder (l ++ [a]) (l ++ a :: m) = true := by
  induction l with
  | nil => simp [isUnder]
  | cons b bs ih => simp [isUnder, ih]

theorem cbc_extract (tars : List String) (dst : FPath) (cleared : List FPath) (rest : List Cmd) :
    clearedBeforeConfigure cleared (tars.map (fun t => Cmd.extract t dst) ++ rest)
      = clearedBeforeConfigure cleared rest := by
  induction tars with
  | nil => rfl
  | cons t ts ih => simp [clearedBeforeConfigure, ih]

theorem cbc_loop (workDir : FPath) (versions : List String) : ∀ cleared,
    clearedBeforeConfigure cleared (wheelsLoopCmds workDir versions) = true := by
  induction versions with
  | nil => intro cleared; rfl
  | cons v vs ih =>
    intro cleared
    simp [wheelsLoopCmds, versionCmds, clearedBeforeConfigure, isUnder_refl, ih]

/-! ## Claim theorems -/

/-- C2 (counterexample): the claim that the search "never returns a
directory as the selected candidate" is false.  On a filesystem whose
reported library directory holds a directory named
`libpython3.10.so.stale` — which matches the tier-2 dynamic-library glob
pattern — the search selects that directory as its candidate: the glob
tiers never re-validate "is a regular file". -/
theorem c2_directory_selected_counterexample :
    findPythonLib staleDirFS ["lib"] "libpython3.10.so" "3.10"
        = some ["lib", "libpython3.10.so.stale"]
      ∧ staleDirFS.kindOf ["lib", "libpython3.10.so.stale"] = some EntryKind.dir := by
  decide

/-- C2 (amended): for every interpreter whose self-reported library path is
missing or is a directory, the search falls through the tiers in the
documented order — dynamic pattern in the reported library directory, then
static pattern there, then the sibling `lib64` directory, then the nested
`python<version>*/config*` subdirectories — taking the first hit of that
ordered concatenation; however, glob-tier candidates are not re-validated
as regular files, so a directory matching a pattern can be selected (only
the tier-1 canonical path is checked for not being a directory). -/
theorem c2_tier_order (fs : SysFS) (libdir : FPath) (ldlib : String) (ver : String) :
    findPythonLib fs libdir ldlib ver = specTierSearch fs libdir ldlib ver := by
  simp only [findPythonLib, specTierSearch]
  by_cases h1 : (fs.existsB (libdir ++ [ldlib]) && !(fs.isDirB (libdir ++ [ldlib]))) = true
  · rw [if_pos h1, if_pos h1]
  · rw [if_neg h1, if_neg h1]
    simp only [List.append_assoc]
    exact tier_dispatch_eq_head _ _ _ _ _ _

/-- C3: when the interpreter's self-reported canonical library path
(`LIBDIR` joined with `LDLIBRARY`) exists and is a regular file, both
variants of the locator return exactly that path, without consulting any
glob tier. -/
theorem c3_canonical_short_circuit (fs : SysFS) (libdir : FPath) (ldlib : String) (ver : String)
    (h : fs.kindOf (libdir ++ [ldlib]) = some EntryKind.file) :
    findPythonLib fs libdir ldlib ver = some (libdir ++ [ldlib])
      ∧ bwPythonLib fs libdir ldlib ver = libdir ++ [ldlib] := by
  have he : fs.existsB (libdir ++ [ldlib]) = true := by
    simp [SysFS.existsB, h]
  have hd : fs.isDirB (libdir ++ [ldlib]) = false := by
    simp [SysFS.isDirB, h]
  constructor
  · simp [findPythonLib, he, hd]
  · simp [bwPythonLib, he, hd]

/-- C3 witness: a filesystem where the canonical path
`usr/lib/libpython3.12.so` is a regular file. -/
theorem c3_canonical_short_circuit_witness :
    canonicalFS.kindOf (["usr", "lib"] ++ ["libpython3.12.so"]) = some EntryKind.file
      ∧ (findPythonLib canonicalFS ["usr", "lib"] "libpython3.12.so" "3.12"
            = some (["usr", "lib"] ++ ["libpython3.12.so"])
          ∧ bwPythonLib canonicalFS ["usr", "lib"] "libpython3.12.so" "3.12"
            = ["usr", "lib"] ++ ["libpython3.12.so"]) :=
  ⟨by decide, c3_canonical_short_circuit canonicalFS ["usr", "lib"] "libpython3.12.so" "3.12" (by decide)⟩

/-- C4: when the canonical path is missing or a directory and no glob tier
matches anything, the full locator reports absence (`none`) rather than
guessing; the wheel-build configure step then carries no `PYTHON_LIBRARY`
argument; and in general that argument is only ever passed when the path
it names is a regular file on disk. -/
theorem c4_absence_means_no_flag (fs : SysFS) (libdir : FPath) (ldlib : String) (ver : String)
    (hmiss : fs.existsB (libdir ++ [ldlib]) = false ∨ fs.isDirB (libdir ++ [ldlib]) = true)
    (hso : fs.globD libdir (soPat ver) = [])
    (ha : fs.globD libdir (aPat ver) = [])
    (h64so : fs.globD (libdir.dropLast ++ ["lib64"]) (soPat ver) = [])
    (h64a : fs.globD (libdir.dropLast ++ ["lib64"]) (aPat ver) = [])
    (hcfgso : (fs.globD2 libdir ("python" ++ ver ++ "*") "config*").flatMap
        (fun cd => fs.globD cd (soPat ver)) = [])
    (hcfga : (fs.globD2 libdir ("python" ++ ver ++ "*") "config*").flatMap
        (fun cd => fs.globD cd (aPat ver)) = []) :
    findPythonLib fs libdir ldlib ver = none
      ∧ pythonLibraryArg fs libdir ldlib ver = none
      ∧ ∀ p, pythonLibraryArg fs libdir ldlib ver = some p → fs.kindOf p = some EntryKind.file := by
  have hcond : (fs.existsB (libdir ++ [ldlib]) && !(fs.isDirB (libdir ++ [ldlib]))) = false := by
    rcases hmiss with h | h <;> simp [h]
  have hfileFalse : (fs.existsB (libdir ++ [ldlib]) && fs.isFileB (libdir ++ [ldlib])) = false := by
    rcases hmiss with h | h
    · simp [h]
    · have : fs.kindOf (libdir ++ [ldlib]) = some EntryKind.dir := by
        simpa [SysFS.isDirB] using h
      simp [SysFS.isFileB, this]
  refine ⟨?_, ?_, ?_⟩
  · simp [findPythonLib, hcond, hso, ha, h64so, h64a, hcfgso, hcfga, pickFirst]
  · simp [pythonLibraryArg, bwPythonLib, hcond, hso, ha, hfileFalse]
  · intro p hp
    simp only [pythonLibraryArg] at hp
    by_cases hok : (fs.existsB (bwPythonLib fs libdir ldlib ver)
        && fs.isFileB (bwPythonLib fs libdir ldlib ver)) = true
    · rw [if_pos hok] at hp
      have hfile : fs.isFileB (bwPythonLib fs libdir ldlib ver) = true :=
        (Bool.and_elim_right hok)
      have hpp : bwPythonLib fs libdir ldlib ver = p := by
        exact Option.some.inj hp
      rw [hpp] at hfile
      simpa [SysFS.isFileB] using hfile
    · rw [if_neg hok] at hp
      exact absurd hp (by simp)

/-- C4 witness: on an empty filesystem nothing matches, the locator reports
absence and the configure invocation carries no link-library argument. -/
theorem c4_absence_means_no_flag_witness :
    (emptyFS.existsB (["usr", "lib"] ++ ["libpython3.11.so"]) = false
        ∨ emptyFS.isDirB (["usr", "lib"] ++ ["libpython3.11.so"]) = true)
      ∧ (findPythonLib emptyFS ["usr", "lib"] "libpython3.11.so" "3.11" = none
          ∧ pythonLibraryArg emptyFS ["usr", "lib"] "libpython3.11.so" "3.11" = none
          ∧ ∀ p, pythonLibraryArg emptyFS ["usr", "lib"] "libpython3.11.so" "3.11" = some p →
              emptyFS.kindOf p = some EntryKind.file) :=
  ⟨Or.inl (by decide),
    c4_absence_means_no_flag emptyFS ["usr", "lib"] "libpython3.11.so" "3.11"
      (Or.inl (by decide)) (by decide) (by decide) (by decide) (by decide) (by decide) (by decide)⟩

/-- C6 (counterexample): the claim that two runs over the same *set* of
matching candidates select the same winner is false.  The two filesystems
below hold the same two matching shared libraries, enumerated in opposite
orders; the glob listings are permutations of each other, yet the locator
picks a different winner from each, because it takes the first element of
the enumeration rather than sorting. -/
theorem c6_enumeration_order_counterexample :
    List.Perm (twoCandFSa.globD ["lib"] (soPat "3.10")) (twoCandFSb.globD ["lib"] (soPat "3.10"))
      ∧ findPythonLib twoCandFSa ["lib"] "libpython3.10.so" "3.10"
          = some ["lib", "libpython3.10m.so"]
      ∧ findPythonLib twoCandFSb ["lib"] "libpython3.10.so" "3.10"
          = some ["lib", "libpython3.10d.so"]
      ∧ findPythonLib twoCandFSa ["lib"] "libpython3.10.so" "3.10"
          ≠ findPythonLib twoCandFSb ["lib"] "libpython3.10.so" "3.10" := by
  decide

/-- C6 (amended): the locator resolves multi-match ambiguity by taking the
first candidate in directory-enumeration order and never escalates it as an
error: the selection is a function of the locator's view of the filesystem
(canonical-path check plus the ordered glob listings), so two runs that see
the same enumerations select the same winner, and whenever the first-tier
glob is non-empty the winner is exactly its first element. -/
theorem c6_deterministic_first_of_enumeration (fs fs' : SysFS) (libdir : FPath)
    (ldlib : String) (ver : String)
    (h : locatorView fs libdir ldlib ver = locatorView fs' libdir ldlib ver) :
    findPythonLib fs libdir ldlib ver = findPythonLib fs' libdir ldlib ver
      ∧ ∀ c cs, (locatorView fs libdir ldlib ver).canonicalOk = false →
          (locatorView fs libdir ldlib ver).libdirSo = c :: cs →
          findPythonLib fs libdir ldlib ver = some c := by
  constructor
  · rw [findPythonLib_eq_locCore, findPythonLib_eq_locCore, h]
  · intro c cs h1 h2
    rw [findPythonLib_eq_locCore]
    simp [locCore, h1, h2, pickFirst]

/-- C6 witness: two distinct filesystems with the same locator view (one
matching library; an unrelated extra entry elsewhere in one of them) yield
the same winner, and the winner is the first enumerated candidate. -/
theorem c6_deterministic_first_of_enumeration_witness :
    locatorView oneCandFSa ["lib"] "libpython3.10.so" "3.10"
        = locatorView oneCandFSb ["lib"] "libpython3.10.so" "3.10"
      ∧ (findPythonLib oneCandFSa ["lib"] "libpython3.10.so" "3.10"
            = findPythonLib oneCandFSb ["lib"] "libpython3.10.so" "3.10"
          ∧ ∀ c cs, (locatorView oneCandFSa ["lib"] "libpython3.10.so" "3.10").canonicalOk = false →
              (locatorView oneCandFSa ["lib"] "libpython3.10.so" "3.10").libdirSo = c :: cs →
              findPythonLib oneCandFSa ["lib"] "libpython3.10.so" "3.10" = some c) :=
  ⟨by decide,
    c6_deterministic_first_of_enumeration oneCandFSa oneCandFSb ["lib"] "libpython3.10.so" "3.10"
      (by decide)⟩

/-- C5: for every interpreter tag, the assembled archive's filename follows
`<package>-<version>-<tag>-<tag>-<platform>.whl` with the tag embedded
twice (the abi-tag position is a copy of the interpreter tag), and the
WHEEL metadata record carries a `Tag:` line whose value is exactly the
`<tag>-<tag>-<platform>` string encoded in the filename. -/
theorem c5_wheel_tag_consistent (tag : String) :
    wheelName tag = specWheelFileName packageName packageVersion tag platformTag
      ∧ ("Tag: " ++ wheelTag tag) ∈ wheelMetadataLines tag
      ∧ wheelTag tag = tag ++ "-" ++ tag ++ "-" ++ platformTag := by
  refine ⟨?_, ?_, rfl⟩
  · simp [wheelName, specWheelFileName, wheelTag, String.append_assoc]
  · simp [wheelMetadataLines]

/-- C9: `package_wheel` requires at least two dot-separated components in
the interpreter version string: for any version string without a dot, the
abi-tag derivation hits an out-of-range index (modelled as `none`) and the
wheel-creation script is never invoked. -/
theorem c9_no_dot_aborts_before_packaging (python_version install_dir output_dir : String)
    (h : ∀ c ∈ python_version.data, c ≠ '.') :
    packageWheelAbiTag python_version = none
      ∧ package_wheel install_dir output_dir python_version = none := by
  have hs : pySplit '.' python_version.data = [python_version.data] :=
    pySplit_of_no_sep '.' python_version.data h
  constructor
  · simp [packageWheelAbiTag, hs]
  · simp [package_wheel, packageWheelAbiTag, hs]

/-- C9 witness: the version string `"3"` has no dot, so the abi-tag
derivation fails before the wheel-creation invocation is assembled. -/
theorem c9_no_dot_aborts_before_packaging_witness :
    (∀ c ∈ ("3" : String).data, c ≠ '.')
      ∧ (packageWheelAbiTag "3" = none ∧ package_wheel "install" "out" "3" = none) :=
  ⟨by decide, c9_no_dot_aborts_before_packaging "3" "install" "out" (by decide)⟩

/-- C10: the assembled raw wheel name is hardcoded: independent of the
source directory and of any requested target platform, it is always
`pythonocc_core-7.9.0-<tag>-<tag>-linux_x86_64.whl`; only the repair step's
auditwheel invocation carries the target platform, via `--plat`. -/
theorem c10_hardcoded_raw_name (src1 src2 output_dir python_version : String)
    (venv_path wheel_path plat_tag repair_out : String) :
    (create_wheel src1 output_dir python_version).wheelFileTarget
        = (create_wheel src2 output_dir python_version).wheelFileTarget
      ∧ (create_wheel src1 output_dir python_version).wheelFileTarget
          = output_dir ++ "/"
              ++ ("pythonocc_core-7.9.0-" ++ python_version ++ "-" ++ python_version
                  ++ "-linux_x86_64.whl")
      ∧ "--plat" ∈ repairCmdArgs venv_path wheel_path plat_tag repair_out
      ∧ plat_tag ∈ repairCmdArgs venv_path wheel_path plat_tag repair_out := by
  refine ⟨rfl, ?_, ?_, ?_⟩
  · simp [create_wheel, wheelName, wheelTag, packageName, packageVersion, platformTag,
      String.append_assoc]
  · simp [repairCmdArgs]
  · simp [repairCmdArgs]

/-- C8: in both orchestrators' command streams, every configure command runs
in a scratch directory that an earlier command of the same run removed and
recreated (the directory itself, or an ancestor of it for the stages that
build inside the freshly recreated 3rd-party scratch tree), so no stale
state from a prior run is present when configure starts: this holds for the
dependency pipeline of `build_3rdparty.py` and for the per-version
extension builds of `build_wheels.py`, for every choice of directories,
tarball list and requested version list. -/
theorem c8_scratch_cleared_before_configure (srcDir installDir buildDir workDir : FPath)
    (tars : List String) (tclSrc tkSrc ftSrc swigSrc : String) (versions : List String) :
    clearedBeforeConfigure []
        (thirdPartyCmds srcDir installDir buildDir tars tclSrc tkSrc ftSrc swigSrc) = true
      ∧ clearedBeforeConfigure [] (buildWheelsMainCmds workDir versions) = true := by
  constructor
  · simp [thirdPartyCmds, tclCmds, tclConfigureCmd, tclMakeCmd, tclInstallCmd, tkCmds,
      tkConfigureCmd, freetypeCmds, swigCmds, occtCmds, clearedBeforeConfigure, cbc_extract,
      isUnder_append, isUnder_append_cons, isUnder_refl, List.append_assoc]
  · simp [buildWheelsMainCmds, clearedBeforeConfigure, cbc_loop]

/-- C1 (counterexample): the claim that a failure in one version's build
does not abort the remaining queued versions is false.  Requesting
`["3.10", "3.12"]` with version 3.10 failing at the extension-compile
`make` step, the trace contains that failure — and contains no command at
all for version 3.12: the batch aborts (`run_command` exits the process),
so 3.12 is never attempted and no wheel for it is produced. -/
theorem c1_batch_abort_counterexample :
    ("3.12" : String) ∈ ["3.10", "3.12"]
      ∧ (Cmd.run "pythonocc" BStep.makeS (some "3.10")
            (["work"] ++ ["build", "pythonocc-3.10"]) ["make", "-j"], false)
          ∈ runTrace failMake310 (buildWheelsMainCmds ["work"] ["3.10", "3.12"])
      ∧ ((runTrace failMake310 (buildWheelsMainCmds ["work"] ["3.10", "3.12"])).map Prod.fst).all
          (fun c => !(cmdVer c == some "3.12")) = true := by
  decide

/-- C1 (amended): a failure anywhere in one version's build aborts the whole
batch immediately: when some command of the first version's build fails,
the trace consists of the pipeline prelude followed by that version's
partial trace only, and every command ever attempted belongs either to the
shared prelude or to the failing version — the remaining queued versions
are never attempted. -/
theorem c1_failure_aborts_batch (ok : Cmd → Bool) (workDir : FPath) (v : String)
    (rest : List String)
    (hpre : ok (Cmd.run "3rdparty" BStep.scriptS none [] ["build_3rdparty.py"]) = true)
    (hfail : (versionCmds workDir v).all ok = false) :
    runTrace ok (buildWheelsMainCmds workDir (v :: rest))
        = (Cmd.run "3rdparty" BStep.scriptS none [] ["build_3rdparty.py"], true)
            :: runTrace ok (versionCmds workDir v)
      ∧ ∀ x ∈ runTrace ok (buildWheelsMainCmds workDir (v :: rest)),
          cmdVer x.1 = none ∨ cmdVer x.1 = some v := by
  have hmain : buildWheelsMainCmds workDir (v :: rest)
      = Cmd.run "3rdparty" BStep.scriptS none [] ["build_3rdparty.py"]
          :: (versionCmds workDir v ++ wheelsLoopCmds workDir rest) := rfl
  have htr : runTrace ok (buildWheelsMainCmds workDir (v :: rest))
      = (Cmd.run "3rdparty" BStep.scriptS none [] ["build_3rdparty.py"], true)
          :: runTrace ok (versionCmds workDir v) := by
    rw [hmain, runTrace_cons, if_pos hpre, runTrace_append, if_neg (by rw [hfail]; simp)]
  refine ⟨htr, ?_⟩
  intro x hx
  rw [htr] at hx
  rcases List.mem_cons.mp hx with h | h
  · left
    rw [h]
    rfl
  · have hmem : x.1 ∈ versionCmds workDir v := runTrace_fst_mem ok _ x h
    simp only [versionCmds, List.mem_cons, List.not_mem_nil, or_false] at hmem
    rcases hmem with h | h | h | h | h | h | h | h <;> rw [h] <;> simp [cmdVer]

/-- C1 (amended) witness: with the oracle that fails the 3.10 compile step,
the batch `["3.10", "3.12"]` aborts inside 3.10's build. -/
theorem c1_failure_aborts_batch_witness :
    failMake310 (Cmd.run "3rdparty" BStep.scriptS none [] ["build_3rdparty.py"]) = true
      ∧ (versionCmds ["work"] "3.10").all failMake310 = false
      ∧ (runTrace failMake310 (buildWheelsMainCmds ["work"] ["3.10", "3.12"])
            = (Cmd.run "3rdparty" BStep.scriptS none [] ["build_3rdparty.py"], true)
                :: runTrace failMake310 (versionCmds ["work"] "3.10")
          ∧ ∀ x ∈ runTrace failMake310 (buildWheelsMainCmds ["work"] ["3.10", "3.12"]),
              cmdVer x.1 = none ∨ cmdVer x.1 = some "3.10") :=
  ⟨by decide, by decide,
    c1_failure_aborts_batch failMake310 ["work"] "3.10" ["3.12"] (by decide) (by decide)⟩

/-- C7: the widget-toolkit (tk) stage never begins before the
runtime-support (tcl) stage has completed its install: whenever the tk
configure command appears in a trace of the 3rd-party pipeline, the trace
decomposes as the fully-successful run prelude (scratch clear, extractions,
tcl configure, tcl make), then the tcl `make install` with outcome `true`,
and only in the remainder after it does the tk configure occur; moreover
tcl and tk configure with the same shared `tcltk` install prefix. -/
theorem c7_tk_begins_after_tcl_install (ok : Cmd → Bool) (srcDir installDir buildDir : FPath)
    (tars : List String) (tclSrc tkSrc ftSrc swigSrc : String)
    (h : tkConfigureCmd (buildDir ++ ["3rdparty"]) (installDir ++ ["tcltk"]) tkSrc
        ∈ (runTrace ok (thirdPartyCmds srcDir installDir buildDir tars tclSrc tkSrc ftSrc swigSrc)).map
            Prod.fst) :
    (∃ tl, runTrace ok (thirdPartyCmds srcDir installDir buildDir tars tclSrc tkSrc ftSrc swigSrc)
        = (Cmd.clearDir (buildDir ++ ["3rdparty"])
              :: (tars.map (fun t => Cmd.extract t (buildDir ++ ["3rdparty"]))
                ++ [tclConfigureCmd (buildDir ++ ["3rdparty"]) (installDir ++ ["tcltk"]) tclSrc,
                    tclMakeCmd (buildDir ++ ["3rdparty"]) tclSrc])).map (fun c => (c, true))
            ++ (tclInstallCmd (buildDir ++ ["3rdparty"]) tclSrc, true) :: tl
        ∧ tkConfigureCmd (buildDir ++ ["3rdparty"]) (installDir ++ ["tcltk"]) tkSrc
            ∈ tl.map Prod.fst)
      ∧ ("--prefix=" ++ pathStr (installDir ++ ["tcltk"]))
          ∈ cmdArgs (tkConfigureCmd (buildDir ++ ["3rdparty"]) (installDir ++ ["tcltk"]) tkSrc)
      ∧ ("--prefix=" ++ pathStr (installDir ++ ["tcltk"]))
          ∈ cmdArgs (tclConfigureCmd (buildDir ++ ["3rdparty"]) (installDir ++ ["tcltk"]) tclSrc) := by
  have hnot : tkConfigureCmd (buildDir ++ ["3rdparty"]) (installDir ++ ["tcltk"]) tkSrc
      ∉ (Cmd.clearDir (buildDir ++ ["3rdparty"])
          :: (tars.map (fun t => Cmd.extract t (buildDir ++ ["3rdparty"]))
            ++ [tclConfigureCmd (buildDir ++ ["3rdparty"]) (installDir ++ ["tcltk"]) tclSrc,
                tclMakeCmd (buildDir ++ ["3rdparty"]) tclSrc])) := by
    intro hmem
    simp [tkConfigureCmd, tclConfigureCmd, tclMakeCmd] at hmem
  have hne_inst : tkConfigureCmd (buildDir ++ ["3rdparty"]) (installDir ++ ["tcltk"]) tkSrc
      ≠ tclInstallCmd (buildDir ++ ["3rdparty"]) tclSrc := by
    simp [tkConfigureCmd, tclInstallCmd]
  have hL : thirdPartyCmds srcDir installDir buildDir tars tclSrc tkSrc ftSrc swigSrc
      = (Cmd.clearDir (buildDir ++ ["3rdparty"])
            :: (tars.map (fun t => Cmd.extract t (buildDir ++ ["3rdparty"]))
              ++ [tclConfigureCmd (buildDir ++ ["3rdparty"]) (installDir ++ ["tcltk"]) tclSrc,
                  tclMakeCmd (buildDir ++ ["3rdparty"]) tclSrc]))
          ++ (tclInstallCmd (buildDir ++ ["3rdparty"]) tclSrc
              :: (tkCmds (buildDir ++ ["3rdparty"]) (installDir ++ ["tcltk"]) tkSrc
                ++ (freetypeCmds (buildDir ++ ["3rdparty"]) (installDir ++ ["freetype"]) ftSrc
                  ++ (swigCmds (buildDir ++ ["3rdparty"]) (installDir ++ ["swig"]) swigSrc
                    ++ occtCmds (srcDir ++ ["occt"]) (installDir ++ ["occt"])
                        (installDir ++ ["tcltk"]) (installDir ++ ["freetype"]))))) := by
    simp [thirdPartyCmds, tclCmds, List.append_assoc]
  refine ⟨?_, by simp [tkConfigureCmd, cmdArgs], by simp [tclConfigureCmd, cmdArgs]⟩
  rw [hL, runTrace_append] at h ⊢
  by_cases hP : ((Cmd.clearDir (buildDir ++ ["3rdparty"])
      :: (tars.map (fun t => Cmd.extract t (buildDir ++ ["3rdparty"]))
        ++ [tclConfigureCmd (buildDir ++ ["3rdparty"]) (installDir ++ ["tcltk"]) tclSrc,
            tclMakeCmd (buildDir ++ ["3rdparty"]) tclSrc])).all ok) = true
  · rw [if_pos hP] at h ⊢
    rw [List.map_append] at h
    rcases List.mem_append.mp h with h1 | h2
    · exfalso
      have hback : ((Cmd.clearDir (buildDir ++ ["3rdparty"])
          :: (tars.map (fun t => Cmd.extract t (buildDir ++ ["3rdparty"]))
            ++ [tclConfigureCmd (buildDir ++ ["3rdparty"]) (installDir ++ ["tcltk"]) tclSrc,
                tclMakeCmd (buildDir ++ ["3rdparty"]) tclSrc])).map
              (fun c => (c, true))).map Prod.fst
          = Cmd.clearDir (buildDir ++ ["3rdparty"])
              :: (tars.map (fun t => Cmd.extract t (buildDir ++ ["3rdparty"]))
                ++ [tclConfigureCmd (buildDir ++ ["3rdparty"]) (installDir ++ ["tcltk"]) tclSrc,
                    tclMakeCmd (buildDir ++ ["3rdparty"]) tclSrc]) := by
        simp
      rw [hback] at h1
      exact hnot h1
    · rw [runTrace_cons] at h2
      by_cases hI : ok (tclInstallCmd (buildDir ++ ["3rdparty"]) tclSrc) = true
      · rw [if_pos hI] at h2
        simp only [List.map_cons] at h2
        rcases List.mem_cons.mp h2 with he | hm
        · exact absurd he hne_inst
        · refine ⟨runTrace ok (tkCmds (buildDir ++ ["3rdparty"]) (installDir ++ ["tcltk"]) tkSrc
              ++ (freetypeCmds (buildDir ++ ["3rdparty"]) (installDir ++ ["freetype"]) ftSrc
                ++ (swigCmds (buildDir ++ ["3rdparty"]) (installDir ++ ["swig"]) swigSrc
                  ++ occtCmds (srcDir ++ ["occt"]) (installDir ++ ["occt"])
                      (installDir ++ ["tcltk"]) (installDir ++ ["freetype"])))), ?_, hm⟩
          rw [runTrace_cons, if_pos hI]
      · exfalso
        rw [if_neg hI] at h2
        simp only [List.map_cons, List.map_nil, List.mem_singleton] at h2
        exact hne_inst h2
  · exfalso
    rw [if_neg hP] at h
    obtain ⟨x, hx, hfx⟩ := List.mem_map.mp h
    exact hnot (hfx ▸ runTrace_fst_mem ok _ x hx)

/-- C7 witness: in an all-success run over concrete directories, the tk
configure command does appear, and the pipeline trace exhibits the
successful tcl install strictly before it, with the shared prefix in both
configure commands. -/
theorem c7_tk_begins_after_tcl_install_witness :
    (tkConfigureCmd (["b"] ++ ["3rdparty"]) (["i"] ++ ["tcltk"]) "tk8.6"
        ∈ (runTrace allOk (thirdPartyCmds ["s"] ["i"] ["b"] [] "tcl8.6" "tk8.6" "ft-2" "swig-4")).map
            Prod.fst)
      ∧ ((∃ tl, runTrace allOk (thirdPartyCmds ["s"] ["i"] ["b"] [] "tcl8.6" "tk8.6" "ft-2" "swig-4")
            = (Cmd.clearDir (["b"] ++ ["3rdparty"])
                  :: (([] : List String).map (fun t => Cmd.extract t (["b"] ++ ["3rdparty"]))
                    ++ [tclConfigureCmd (["b"] ++ ["3rdparty"]) (["i"] ++ ["tcltk"]) "tcl8.6",
                        tclMakeCmd (["b"] ++ ["3rdparty"]) "tcl8.6"])).map (fun c => (c, true))
                ++ (tclInstallCmd (["b"] ++ ["3rdparty"]) "tcl8.6", true) :: tl
            ∧ tkConfigureCmd (["b"] ++ ["3rdparty"]) (["i"] ++ ["tcltk"]) "tk8.6"
                ∈ tl.map Prod.fst)
          ∧ ("--prefix=" ++ pathStr (["i"] ++ ["tcltk"]))
              ∈ cmdArgs (tkConfigureCmd (["b"] ++ ["3rdparty"]) (["i"] ++ ["tcltk"]) "tk8.6")
          ∧ ("--prefix=" ++ pathStr (["i"] ++ ["tcltk"]))
              ∈ cmdArgs (tclConfigureCmd (["b"] ++ ["3rdparty"]) (["i"] ++ ["tcltk"]) "tcl8.6")) :=
  ⟨by decide,
    c7_tk_begins_after_tcl_install allOk ["s"] ["i"] ["b"] [] "tcl8.6" "tk8.6" "ft-2" "swig-4"
      (by decide)⟩

end PyoccBuilder
